import Mathlib

/-!
Shallow embedding of the IntlFormatter number-formatting facade
(src/src/formatter/intlFormatter.ts) together with its option type
(src/types).

Modelling choices:
* JavaScript numbers are modelled as rationals; the numeric thresholds
  1e3, 1e6, 1e9, 1e12 and 1e-6 used by the code are exact.
* The host environment (the Intl primitive, navigator.language, and the
  string conversion functions toFixed, toExponential, toLocaleString,
  which the spec declares out of scope) is an abstract record of
  deterministic functions.  Construction of the native formatter may
  throw; this is modelled with Except.
* A JavaScript options object is a record of optional fields, where a
  missing key is none.  The source loop that deletes keys whose value is
  undefined is the identity in this model, since an undefined value and a
  missing key are both none.
* The FormatOptions key called "notation" in the source is named notn
  here, because the source name is a Lean keyword.
-/

namespace IntlSpec

/-- Values of the style option of FormatOptions (src/types). -/
inductive StyleOpt where
  | decimal | currency | percent | unit
deriving DecidableEq, Repr

/-- Values of the option key called "notation" in FormatOptions (src/types). -/
inductive NotnOpt where
  | standard | scientific | engineering | compact
deriving DecidableEq, Repr

/-- Values of the useGrouping option: a boolean or one of three strings. -/
inductive GroupingOpt where
  | bool (b : Bool) | always | auto | min2
deriving DecidableEq, Repr

/-- Values of the signDisplay option. -/
inductive SignDisplayOpt where
  | auto | never | always | exceptZero
deriving DecidableEq, Repr

/-- Values of the currencyDisplay option. -/
inductive CurrencyDisplayOpt where
  | symbol | narrowSymbol | code | name
deriving DecidableEq, Repr

/-- Values of the currencySign option. -/
inductive CurrencySignOpt where
  | standard | accounting
deriving DecidableEq, Repr

/-- Values of the unitDisplay option. -/
inductive UnitDisplayOpt where
  | long | short | narrow
deriving DecidableEq, Repr

/-- Values of the roundingMode option. -/
inductive RoundingModeOpt where
  | ceil | floor | expand | trunc
  | halfCeil | halfFloor | halfExpand | halfTrunc | halfEven
deriving DecidableEq, Repr

/-- Values of the compactDisplay option. -/
inductive CompactDisplayOpt where
  | long | short | narrow
deriving DecidableEq, Repr

/-- The FormatOptions object of src/types: every key optional; none means
the key is absent.  Digit counts are integers (JavaScript numbers used as
digit counts). -/
structure FormatOptions where
  locale : Option String := none
  currency : Option String := none
  style : Option StyleOpt := none
  notn : Option NotnOpt := none
  unit : Option String := none
  minimumFractionDigits : Option Int := none
  maximumFractionDigits : Option Int := none
  minimumSignificantDigits : Option Int := none
  maximumSignificantDigits : Option Int := none
  useGrouping : Option GroupingOpt := none
  signDisplay : Option SignDisplayOpt := none
  currencyDisplay : Option CurrencyDisplayOpt := none
  currencySign : Option CurrencySignOpt := none
  unitDisplay : Option UnitDisplayOpt := none
  roundingMode : Option RoundingModeOpt := none
  compactDisplay : Option CompactDisplayOpt := none
deriving DecidableEq, Repr

/-- A constructed native Intl.NumberFormat instance: its format method and
(when present on the prototype) its formatRange method, both deterministic
host functions. -/
structure NativeFormatter where
  fmt : ℚ → String
  fmtRange : ℚ → ℚ → String

/-- The host environment: whether the Intl primitive exists, the value of
navigator.language, whether the NumberFormat prototype has a formatRange
function, the (possibly throwing) native formatter constructor, and the
host string conversion functions, which the spec treats as out-of-scope
deterministic collaborators. -/
structure Host where
  intlAvailable : Bool
  navigatorLanguage : Option String
  hasFormatRange : Bool
  mkFormatter : Option String → FormatOptions → Except Unit NativeFormatter
  toLocaleString : ℚ → Option String → String
  toFixed : ℚ → Int → String
  toExponential : ℚ → Int → String

/-- Left-biased choice on optional values: the JavaScript object spread
semantics for one key, with the overriding object on the left. -/
def orOpt {α : Type} : Option α → Option α → Option α
  | some v, _ => some v
  | none, b => b

/-- Object spread of caller options over defaults, key by key:
models the expression with defaults spread first and options after. -/
def mergeOptions (d o : FormatOptions) : FormatOptions where
  locale := orOpt o.locale d.locale
  currency := orOpt o.currency d.currency
  style := orOpt o.style d.style
  notn := orOpt o.notn d.notn
  unit := orOpt o.unit d.unit
  minimumFractionDigits := orOpt o.minimumFractionDigits d.minimumFractionDigits
  maximumFractionDigits := orOpt o.maximumFractionDigits d.maximumFractionDigits
  minimumSignificantDigits := orOpt o.minimumSignificantDigits d.minimumSignificantDigits
  maximumSignificantDigits := orOpt o.maximumSignificantDigits d.maximumSignificantDigits
  useGrouping := orOpt o.useGrouping d.useGrouping
  signDisplay := orOpt o.signDisplay d.signDisplay
  currencyDisplay := orOpt o.currencyDisplay d.currencyDisplay
  currencySign := orOpt o.currencySign d.currencySign
  unitDisplay := orOpt o.unitDisplay d.unitDisplay
  roundingMode := orOpt o.roundingMode d.roundingMode
  compactDisplay := orOpt o.compactDisplay d.compactDisplay

/-- The library default options written literally in the constructor of
IntlFormatter, including the locale default derived from
navigator.language with the or-else fallback to en-US. -/
def libraryDefaults (h : Host) : FormatOptions where
  locale := some (match h.navigatorLanguage with
    | some s => if s = "" then "en-US" else s
    | none => "en-US")
  currency := none
  style := some .decimal
  notn := some .standard
  unit := none
  minimumFractionDigits := some 0
  maximumFractionDigits := some 2
  minimumSignificantDigits := none
  maximumSignificantDigits := none
  useGrouping := some (.bool true)
  signDisplay := some .auto
  currencyDisplay := some .symbol
  currencySign := none
  unitDisplay := some .short
  roundingMode := some .halfEven
  compactDisplay := some .short

/-- The constructor of IntlFormatter: spread of the caller options over the
library defaults, stored as the instance defaultOptions. -/
def mkDefaultOptions (h : Host) (options : FormatOptions) : FormatOptions :=
  mergeOptions (libraryDefaults h) options

/-- Whether an Except result is a success; models a try block that returns
true unless the expression throws. -/
def exceptOk {ε α : Type} : Except ε α → Bool
  | .ok _ => true
  | .error _ => false

/-- The option record used by the supportsNotation probe. -/
def probeNotnOpts : FormatOptions := { notn := some .compact }

/-- The option record used by the supportsRoundingMode probe. -/
def probeRoundingOpts : FormatOptions := { roundingMode := some .halfEven }

/-- The option record used by the supportsUnitFormat probe. -/
def probeUnitOpts : FormatOptions := { style := some .unit, unit := some "meter" }

/-- The option record used by the supportsSignDisplay probe. -/
def probeSignOpts : FormatOptions := { signDisplay := some .always }

/-- supportsNotation: try constructing the native formatter for locale en
with compact as the option called "notation"; true iff no throw. -/
def supportsNotation (h : Host) : Bool :=
  exceptOk (h.mkFormatter (some "en") probeNotnOpts)

/-- supportsRoundingMode: try constructing with roundingMode halfEven. -/
def supportsRoundingMode (h : Host) : Bool :=
  exceptOk (h.mkFormatter (some "en") probeRoundingOpts)

/-- supportsUnitFormat: try constructing with style unit and unit meter. -/
def supportsUnitFormat (h : Host) : Bool :=
  exceptOk (h.mkFormatter (some "en") probeUnitOpts)

/-- supportsSignDisplay: try constructing with signDisplay always. -/
def supportsSignDisplay (h : Host) : Bool :=
  exceptOk (h.mkFormatter (some "en") probeSignOpts)

/-- supportsFormatRange: the Intl primitive exists and the NumberFormat
prototype has a formatRange function.  Note this is a feature check, not a
construct-and-catch probe. -/
def supportsFormatRange (h : Host) : Bool :=
  h.intlAvailable && h.hasFormatRange

/-- The lowercase language subtag of a locale string: the part before the
first hyphen of the lowercased locale. -/
def langOf (locale : String) : String :=
  (locale.toLower.splitOn "-").headD ""

/-- getLocaleSeparator: the range separator chosen from the lowercase
language subtag of the locale. -/
def getLocaleSeparator (locale : String) : String :=
  let lang := langOf locale
  if lang = "zh" ∨ lang = "ja" ∨ lang = "ko" then "～"
  else if lang = "ar" ∨ lang = "fa" ∨ lang = "he" then "—"
  else if lang = "th" then " ถึง "
  else "–"

/-- The safe-options stripping performed by format: delete the keys of
every unsupported capability from the merged options.  The trailing
cleanup of undefined values in the source is the identity here. -/
def stripUnsupported (h : Host) (o : FormatOptions) : FormatOptions :=
  let o1 := if supportsNotation h then o
            else { o with notn := none, compactDisplay := none }
  let o2 := if supportsRoundingMode h then o1
            else { o1 with roundingMode := none }
  let o3 := if supportsSignDisplay h then o2
            else { o2 with signDisplay := none }
  if supportsUnitFormat h then o3
  else { o3 with unit := none, unitDisplay := none }

/-- The safe-options stripping performed by formatRange: the same as in
format except that the unit keys are not stripped. -/
def stripUnsupportedRange (h : Host) (o : FormatOptions) : FormatOptions :=
  let o1 := if supportsNotation h then o
            else { o with notn := none, compactDisplay := none }
  let o2 := if supportsRoundingMode h then o1
            else { o1 with roundingMode := none }
  if supportsSignDisplay h then o2
  else { o2 with signDisplay := none }

/-- JavaScript truthiness of an optional number: present and nonzero. -/
def truthyInt : Option Int → Bool
  | some n => n != 0
  | none => false

/-- Math.abs on the rational model of JavaScript numbers. -/
def jsAbs (q : ℚ) : ℚ := if q < 0 then -q else q

/-- Division of a rational by a power of ten, written with mkRat so that it
evaluates; divPow10_eq_div shows it is ordinary division. -/
def divPow10 (q : ℚ) (k : Nat) : ℚ := mkRat q.num (q.den * 10 ^ k)

/-- The small-number threshold Math.pow(10, -6) of format, idealized as the
exact rational. -/
def tinyThreshold : ℚ := mkRat 1 1000000

/-- The locale destructured in format and formatRange: the locale key of
the merged options, defaulting to the instance default locale when the
merged value is undefined. -/
def formatLocale (defaults options : FormatOptions) : Option String :=
  orOpt (mergeOptions defaults options).locale defaults.locale

/-- The option record format passes to the native formatter constructor:
the merged options without the locale key, stripped of unsupported keys. -/
def formatSafeOpts (h : Host) (defaults options : FormatOptions) : FormatOptions :=
  stripUnsupported h { mergeOptions defaults options with locale := none }

/-- The option record formatRange passes to the native formatter
constructor. -/
def rangeSafeOpts (h : Host) (defaults options : FormatOptions) : FormatOptions :=
  stripUnsupportedRange h { mergeOptions defaults options with locale := none }

/-- The part of format after the small-number early return: the Intl
availability check, the construction of the native formatter on the
stripped options, and the catch branch that falls back to toLocaleString
with the instance default locale. -/
def formatMain (h : Host) (defaults : FormatOptions) (value : ℚ)
    (options : FormatOptions) : String :=
  let locale := formatLocale defaults options
  if h.intlAvailable = false then
    h.toLocaleString value locale
  else
    match h.mkFormatter locale (formatSafeOpts h defaults options) with
    | .ok f => f.fmt value
    | .error _ => h.toLocaleString value defaults.locale

/-- IntlFormatter.format.  The early branch returns toFixed of the value at
the per-call minimumFractionDigits when the absolute value is below the
tiny threshold and the per-call minimumFractionDigits is truthy. -/
def format (h : Host) (defaults : FormatOptions) (value : ℚ)
    (options : FormatOptions) : String :=
  if jsAbs value < tinyThreshold ∧ truthyInt options.minimumFractionDigits = true then
    h.toFixed value (options.minimumFractionDigits.getD 0)
  else
    formatMain h defaults value options

/-- IntlFormatter.formatCurrency: format with style currency and fraction
digit defaults of 2 applied with nullish coalescing. -/
def formatCurrency (h : Host) (defaults : FormatOptions) (value : ℚ)
    (options : FormatOptions) : String :=
  format h defaults value
    { options with
      style := some .currency
      minimumFractionDigits := some (options.minimumFractionDigits.getD 2)
      maximumFractionDigits := some (options.maximumFractionDigits.getD 2) }

/-- IntlFormatter.formatPercent: format with style percent, minimum
fraction digits defaulting to 0 and maximum to 1. -/
def formatPercent (h : Host) (defaults : FormatOptions) (value : ℚ)
    (options : FormatOptions) : String :=
  format h defaults value
    { options with
      style := some .percent
      minimumFractionDigits := some (options.minimumFractionDigits.getD 0)
      maximumFractionDigits := some (options.maximumFractionDigits.getD 1) }

/-- getUnitLongForm: the long-name lookup table, falling back to the given
unit string itself. -/
def getUnitLongForm (unit : String) : String :=
  if unit = "meter" ∨ unit = "m" then "meters"
  else if unit = "kilometer" ∨ unit = "km" then "kilometers"
  else if unit = "celsius" then "degrees Celsius"
  else if unit = "fahrenheit" then "degrees Fahrenheit"
  else if unit = "gram" ∨ unit = "g" then "grams"
  else if unit = "kilogram" ∨ unit = "kg" then "kilograms"
  else if unit = "liter" ∨ unit = "l" then "liters"
  else if unit = "milliliter" ∨ unit = "ml" then "milliliters"
  else if unit = "second" ∨ unit = "s" then "seconds"
  else if unit = "minute" ∨ unit = "min" then "minutes"
  else if unit = "hour" ∨ unit = "h" then "hours"
  else if unit = "day" ∨ unit = "d" then "days"
  else if unit = "week" ∨ unit = "w" then "weeks"
  else if unit = "month" ∨ unit = "mo" then "months"
  else if unit = "year" ∨ unit = "y" then "years"
  else if unit = "byte" ∨ unit = "b" then "bytes"
  else if unit = "kilobyte" ∨ unit = "kb" then "kilobytes"
  else if unit = "megabyte" ∨ unit = "mb" then "megabytes"
  else if unit = "gigabyte" ∨ unit = "gb" then "gigabytes"
  else unit

/-- getUnitNarrowForm: the narrow-name lookup table, falling back to the
given unit string itself. -/
def getUnitNarrowForm (unit : String) : String :=
  if unit = "meter" then "m"
  else if unit = "kilometer" then "km"
  else if unit = "celsius" then "°C"
  else if unit = "fahrenheit" then "°F"
  else if unit = "gram" then "g"
  else if unit = "kilogram" then "kg"
  else if unit = "liter" then "l"
  else if unit = "milliliter" then "ml"
  else if unit = "second" then "s"
  else if unit = "minute" then "min"
  else if unit = "hour" then "h"
  else if unit = "day" then "d"
  else if unit = "week" then "w"
  else if unit = "month" then "mo"
  else if unit = "year" then "y"
  else if unit = "byte" then "b"
  else if unit = "kilobyte" then "kb"
  else if unit = "megabyte" then "mb"
  else if unit = "gigabyte" then "gb"
  else unit

/-- IntlFormatter.formatUnit: when the host lacks unit formatting, append
the looked-up unit name to the plainly formatted value; otherwise format
with style unit. -/
def formatUnit (h : Host) (defaults : FormatOptions) (value : ℚ)
    (unit : String) (options : FormatOptions) : String :=
  if supportsUnitFormat h = false then
    let formattedValue := format h defaults value options
    let unitDisplay := options.unitDisplay.getD .short
    let unitStr := match unitDisplay with
      | .short => unit
      | .long => getUnitLongForm unit
      | .narrow => getUnitNarrowForm unit
    formattedValue ++ " " ++ unitStr
  else
    format h defaults value
      { options with
        style := some .unit
        unit := some unit
        unitDisplay := some (options.unitDisplay.getD .short) }

/-- IntlFormatter.formatCustom: apply the caller-supplied post-processing
function to the formatted value. -/
def formatCustom (h : Host) (defaults : FormatOptions) (value : ℚ)
    (formatFn : String → String) (options : FormatOptions) : String :=
  formatFn (format h defaults value options)

/-- The or-else expression on the locale before getLocaleSeparator: an
undefined or empty locale becomes en. -/
def localeOrEn : Option String → String
  | some s => if s = "" then "en" else s
  | none => "en"

/-- IntlFormatter.formatRange: the Intl availability check, the native
formatter construction on the stripped options, the native formatRange
when the prototype has it, otherwise joining the two formatted endpoints
with the locale separator; the catch branch joins two plain format results
with a hyphen. -/
def formatRange (h : Host) (defaults : FormatOptions) (start endv : ℚ)
    (options : FormatOptions) : String :=
  let locale := formatLocale defaults options
  if h.intlAvailable = false then
    h.toLocaleString start locale ++ " - " ++ h.toLocaleString endv locale
  else
    match h.mkFormatter locale (rangeSafeOpts h defaults options) with
    | .ok f =>
      if supportsFormatRange h then f.fmtRange start endv
      else f.fmt start ++ getLocaleSeparator (localeOrEn locale) ++ f.fmt endv
    | .error _ => format h defaults start {} ++ " - " ++ format h defaults endv {}

/-- The toFixed precision used by the compact fallback: the literal
precision 1 clamped by the minimum and maximum fraction digits of the call,
both defaulting to 1. -/
def compactPrecision (options : FormatOptions) : Int :=
  min (max (options.minimumFractionDigits.getD 1) 1)
    (options.maximumFractionDigits.getD 1)

/-- IntlFormatter.formatCompact: without notation support, the T/B/M/K
suffix table over the absolute value with a minus-sign prefix for negative
values; with support, format with compact as the option called
"notation". -/
def formatCompact (h : Host) (defaults : FormatOptions) (value : ℚ)
    (options : FormatOptions) : String :=
  if supportsNotation h = false then
    let absValue := jsAbs value
    let sign := if value < 0 then "-" else ""
    let p := compactPrecision options
    if absValue ≥ 1000000000000 then
      sign ++ h.toFixed (divPow10 absValue 12) p ++ "T"
    else if absValue ≥ 1000000000 then
      sign ++ h.toFixed (divPow10 absValue 9) p ++ "B"
    else if absValue ≥ 1000000 then
      sign ++ h.toFixed (divPow10 absValue 6) p ++ "M"
    else if absValue ≥ 1000 then
      sign ++ h.toFixed (divPow10 absValue 3) p ++ "K"
    else format h defaults value options
  else
    format h defaults value
      { options with
        notn := some .compact
        compactDisplay := some (options.compactDisplay.getD .short) }

/-- IntlFormatter.formatScientific: without notation support, exponential
notation at a precision derived from the significant digit options with
defaults 3 and 5; with support, format with scientific as the option
called "notation". -/
def formatScientific (h : Host) (defaults : FormatOptions) (value : ℚ)
    (options : FormatOptions) : String :=
  if supportsNotation h = false then
    let minSD := options.minimumSignificantDigits.getD 3
    let maxSD := options.maximumSignificantDigits.getD 5
    let precision := min (max (minSD - 1) 0) (maxSD - 1)
    h.toExponential value precision
  else
    format h defaults value
      { options with
        notn := some .scientific
        minimumSignificantDigits := some (options.minimumSignificantDigits.getD 3)
        maximumSignificantDigits := some (options.maximumSignificantDigits.getD 5) }

/-- One public method invocation on an IntlFormatter instance. -/
inductive Call where
  | callFormat (v : ℚ) (o : FormatOptions)
  | callCurrency (v : ℚ) (o : FormatOptions)
  | callPercent (v : ℚ) (o : FormatOptions)
  | callUnit (v : ℚ) (u : String) (o : FormatOptions)
  | callCustom (v : ℚ) (f : String → String) (o : FormatOptions)
  | callRange (s e : ℚ) (o : FormatOptions)
  | callCompact (v : ℚ) (o : FormatOptions)
  | callScientific (v : ℚ) (o : FormatOptions)

/-- Executing one public method on an instance whose state is its
defaultOptions record: every method reads the state and returns a string;
no method body assigns to the defaultOptions field, so the state after
each call is the record the method started from. -/
def dispatch (h : Host) (st : FormatOptions) : Call → FormatOptions × String
  | .callFormat v o => (st, format h st v o)
  | .callCurrency v o => (st, formatCurrency h st v o)
  | .callPercent v o => (st, formatPercent h st v o)
  | .callUnit v u o => (st, formatUnit h st v u o)
  | .callCustom v f o => (st, formatCustom h st v f o)
  | .callRange s e o => (st, formatRange h st s e o)
  | .callCompact v o => (st, formatCompact h st v o)
  | .callScientific v o => (st, formatScientific h st v o)

/-- The instance state after a sequence of public method calls. -/
def runCalls (h : Host) (st : FormatOptions) : List Call → FormatOptions
  | [] => st
  | c :: cs => runCalls h (dispatch h st c).1 cs

/-- A fixed native formatter instance used by the concrete test hosts. -/
def nfConst : NativeFormatter where
  fmt := fun _ => "NF"
  fmtRange := fun _ _ => "NR"

/-- A host whose native constructor throws whenever any of the four
probed option keys is present: every capability probe reports false. -/
def hostNoFeatures : Host where
  intlAvailable := true
  navigatorLanguage := some "en-US"
  hasFormatRange := false
  mkFormatter := fun _ o =>
    if o.notn.isSome || o.roundingMode.isSome || o.signDisplay.isSome || o.unit.isSome
    then .error () else .ok nfConst
  toLocaleString := fun _ _ => "tls"
  toFixed := fun _ _ => "fx"
  toExponential := fun _ _ => "ex"

/-- A host supporting every feature. -/
def hostFull : Host where
  intlAvailable := true
  navigatorLanguage := some "en-US"
  hasFormatRange := true
  mkFormatter := fun _ _ => .ok nfConst
  toLocaleString := fun _ _ => "tls"
  toFixed := fun _ _ => "fx"
  toExponential := fun _ _ => "ex"

/-- A host on which every native constructor call succeeds but whose
NumberFormat prototype lacks a formatRange function. -/
def hostOkNoRange : Host where
  intlAvailable := true
  navigatorLanguage := none
  hasFormatRange := false
  mkFormatter := fun _ _ => .ok nfConst
  toLocaleString := fun _ _ => "tls"
  toFixed := fun _ _ => "fx"
  toExponential := fun _ _ => "ex"

/-- A host whose native constructor always throws. -/
def hostThrow : Host where
  intlAvailable := true
  navigatorLanguage := none
  hasFormatRange := true
  mkFormatter := fun _ _ => .error ()
  toLocaleString := fun _ _ => "tls"
  toFixed := fun _ _ => "fx"
  toExponential := fun _ _ => "ex"

/-- The state left behind by one public method call is the state it was
called in. -/
lemma dispatch_fst (h : Host) (st : FormatOptions) (c : Call) :
    (dispatch h st c).1 = st := by
  cases c <;> rfl

/-- Claim C4: option resolution layers the per-call options over the
constructor options over the library defaults: every key of the merged
record is the caller value when present, else the constructor value when
present, else the literal library default, with the default locale being
navigator.language unless it is absent or empty, in which case en-US. -/
theorem merged_options_layering (h : Host) (ctorOpts callOpts : FormatOptions) :
    mergeOptions (mkDefaultOptions h ctorOpts) callOpts =
      { locale := orOpt callOpts.locale (orOpt ctorOpts.locale
          (some (match h.navigatorLanguage with
            | some s => if s = "" then "en-US" else s
            | none => "en-US")))
        currency := orOpt callOpts.currency (orOpt ctorOpts.currency none)
        style := orOpt callOpts.style (orOpt ctorOpts.style (some .decimal))
        notn := orOpt callOpts.notn (orOpt ctorOpts.notn (some .standard))
        unit := orOpt callOpts.unit (orOpt ctorOpts.unit none)
        minimumFractionDigits := orOpt callOpts.minimumFractionDigits
          (orOpt ctorOpts.minimumFractionDigits (some 0))
        maximumFractionDigits := orOpt callOpts.maximumFractionDigits
          (orOpt ctorOpts.maximumFractionDigits (some 2))
        minimumSignificantDigits := orOpt callOpts.minimumSignificantDigits
          (orOpt ctorOpts.minimumSignificantDigits none)
        maximumSignificantDigits := orOpt callOpts.maximumSignificantDigits
          (orOpt ctorOpts.maximumSignificantDigits none)
        useGrouping := orOpt callOpts.useGrouping
          (orOpt ctorOpts.useGrouping (some (.bool true)))
        signDisplay := orOpt callOpts.signDisplay
          (orOpt ctorOpts.signDisplay (some .auto))
        currencyDisplay := orOpt callOpts.currencyDisplay
          (orOpt ctorOpts.currencyDisplay (some .symbol))
        currencySign := orOpt callOpts.currencySign
          (orOpt ctorOpts.currencySign none)
        unitDisplay := orOpt callOpts.unitDisplay
          (orOpt ctorOpts.unitDisplay (some .short))
        roundingMode := orOpt callOpts.roundingMode
          (orOpt ctorOpts.roundingMode (some .halfEven))
        compactDisplay := orOpt callOpts.compactDisplay
          (orOpt ctorOpts.compactDisplay (some .short)) } := rfl

/-- Claim C5, amended: the notation, rounding mode, unit and sign display
capabilities are probed by construct-and-catch, true iff the construction
does not throw; range support is instead a feature check on the prototype
together with the existence of the Intl primitive. -/
theorem capability_probe_definitions (h : Host) :
    supportsNotation h = exceptOk (h.mkFormatter (some "en") probeNotnOpts) ∧
    supportsRoundingMode h = exceptOk (h.mkFormatter (some "en") probeRoundingOpts) ∧
    supportsUnitFormat h = exceptOk (h.mkFormatter (some "en") probeUnitOpts) ∧
    supportsSignDisplay h = exceptOk (h.mkFormatter (some "en") probeSignOpts) ∧
    supportsFormatRange h = (h.intlAvailable && h.hasFormatRange) :=
  ⟨rfl, rfl, rfl, rfl, rfl⟩

/-- Claim C5, counterexample: on a host where every native constructor
call succeeds, a construct-and-catch probe would report true for every
option, yet the range-formatting probe reports false, so range support is
not probed by attempting a construction and catching failure. -/
theorem range_probe_is_not_construction :
    exceptOk (hostOkNoRange.mkFormatter (some "en") {}) = true ∧
    exceptOk (hostOkNoRange.mkFormatter (some "en") probeNotnOpts) = true ∧
    exceptOk (hostOkNoRange.mkFormatter (some "en") probeUnitOpts) = true ∧
    exceptOk (hostOkNoRange.mkFormatter (some "en") probeRoundingOpts) = true ∧
    exceptOk (hostOkNoRange.mkFormatter (some "en") probeSignOpts) = true ∧
    supportsFormatRange hostOkNoRange = false :=
  ⟨rfl, rfl, rfl, rfl, rfl, rfl⟩

/-- Claim C8: with the host fixed, each formatting operation is a function
of the value and options alone: equal inputs give equal output strings. -/
theorem formatting_is_deterministic (h : Host) (d : FormatOptions)
    (v v' : ℚ) (o o' : FormatOptions) (hv : v = v') (ho : o = o') :
    format h d v o = format h d v' o' ∧
    formatCompact h d v o = formatCompact h d v' o' ∧
    formatScientific h d v o = formatScientific h d v' o' ∧
    formatCurrency h d v o = formatCurrency h d v' o' ∧
    (∀ s e : ℚ, formatRange h d s e o = formatRange h d s e o') := by
  subst hv; subst ho
  exact ⟨rfl, rfl, rfl, rfl, fun _ _ => rfl⟩

/-- Claim C8, witness at a concrete host, value and option record. -/
theorem formatting_is_deterministic_witness :
    format hostFull (mkDefaultOptions hostFull {}) 2 { style := some .percent } =
      format hostFull (mkDefaultOptions hostFull {}) 2 { style := some .percent } :=
  (formatting_is_deterministic hostFull (mkDefaultOptions hostFull {})
    2 2 { style := some .percent } { style := some .percent } rfl rfl).1

/-- Claim C9: the instance state (the defaultOptions record) is unchanged
by any sequence of public method calls, so the output of a call after the
sequence equals its output directly after construction. -/
theorem instance_state_immutable (h : Host) (st : FormatOptions) (cs : List Call) :
    runCalls h st cs = st ∧
    (∀ c : Call, (dispatch h (runCalls h st cs) c).2 = (dispatch h st c).2) := by
  have key : ∀ (cs : List Call) (st : FormatOptions), runCalls h st cs = st := by
    intro cs
    induction cs with
    | nil => intro st; rfl
    | cons c cs ih =>
      intro st
      show runCalls h (dispatch h st c).1 cs = st
      rw [dispatch_fst]
      exact ih st
  exact ⟨key cs st, fun c => by rw [key cs st]⟩

/-- divPow10 is ordinary division by the power of ten. -/
lemma divPow10_eq_div (q : ℚ) (k : ℕ) : divPow10 q k = q / 10 ^ k := by
  unfold divPow10
  rw [Rat.mkRat_eq_div]
  push_cast
  rw [div_mul_eq_div_div, Rat.num_div_den]

/-- Claim C1, amended: whenever a capability probe reports unsupported,
the option record format hands to the native constructor has the
corresponding keys deleted (notation with compactDisplay, roundingMode,
signDisplay, unit with unitDisplay); formatRange deletes only the first
three pairs and passes the merged unit and unitDisplay keys through
unstripped; when the Intl primitive exists and construction succeeds, the
result is the native formatter applied to the value. -/
theorem unsupported_options_stripped (h : Host) (d o : FormatOptions) :
    (supportsNotation h = false →
      (formatSafeOpts h d o).notn = none ∧
      (formatSafeOpts h d o).compactDisplay = none ∧
      (rangeSafeOpts h d o).notn = none ∧
      (rangeSafeOpts h d o).compactDisplay = none) ∧
    (supportsRoundingMode h = false →
      (formatSafeOpts h d o).roundingMode = none ∧
      (rangeSafeOpts h d o).roundingMode = none) ∧
    (supportsSignDisplay h = false →
      (formatSafeOpts h d o).signDisplay = none ∧
      (rangeSafeOpts h d o).signDisplay = none) ∧
    (supportsUnitFormat h = false →
      (formatSafeOpts h d o).unit = none ∧
      (formatSafeOpts h d o).unitDisplay = none ∧
      (rangeSafeOpts h d o).unit = (mergeOptions d o).unit ∧
      (rangeSafeOpts h d o).unitDisplay = (mergeOptions d o).unitDisplay) ∧
    (∀ (v : ℚ) (f : NativeFormatter),
      h.intlAvailable = true →
      ¬(jsAbs v < tinyThreshold ∧ truthyInt o.minimumFractionDigits = true) →
      h.mkFormatter (formatLocale d o) (formatSafeOpts h d o) = .ok f →
      format h d v o = f.fmt v) := by
  refine ⟨?_, ?_, ?_, ?_, ?_⟩
  · intro hn
    simp only [formatSafeOpts, rangeSafeOpts, stripUnsupported, stripUnsupportedRange]
    split_ifs <;> simp_all
  · intro hn
    simp only [formatSafeOpts, rangeSafeOpts, stripUnsupported, stripUnsupportedRange]
    split_ifs <;> simp_all
  · intro hn
    simp only [formatSafeOpts, rangeSafeOpts, stripUnsupported, stripUnsupportedRange]
    split_ifs <;> simp_all
  · intro hn
    simp only [formatSafeOpts, rangeSafeOpts, stripUnsupported, stripUnsupportedRange]
    split_ifs <;> simp_all
  · intro v f hintl hnt hmk
    unfold format
    rw [if_neg hnt]
    unfold formatMain
    rw [hintl]
    simp only [Bool.true_eq_false, if_false, hmk]

/-- Claim C1, witness: a host failing all four probes, with standard
option defaults merged in, still reaches the native formatter on the
stripped record. -/
theorem unsupported_options_stripped_witness :
    format hostNoFeatures (mkDefaultOptions hostNoFeatures {}) 1 {} = nfConst.fmt 1 ∧
    (formatSafeOpts hostNoFeatures (mkDefaultOptions hostNoFeatures {}) {}).notn = none :=
  ⟨(unsupported_options_stripped hostNoFeatures (mkDefaultOptions hostNoFeatures {}) {}).2.2.2.2
      1 nfConst rfl (by decide) rfl,
    ((unsupported_options_stripped hostNoFeatures (mkDefaultOptions hostNoFeatures {}) {}).1 rfl).1⟩

/-- Claim C1, counterexample: on a host whose unit probe reports
unsupported, the option record formatRange hands to the native
constructor still carries a caller-supplied unit key and the merged
default unitDisplay key, so formatRange does not delete the unit keys as
the original claim states. -/
theorem range_keeps_unit_keys :
    supportsUnitFormat hostNoFeatures = false ∧
    (rangeSafeOpts hostNoFeatures (mkDefaultOptions hostNoFeatures {})
      { unit := some "meter" }).unit = some "meter" ∧
    (rangeSafeOpts hostNoFeatures (mkDefaultOptions hostNoFeatures {})
      { unit := some "meter" }).unitDisplay = some .short := by
  refine ⟨rfl, rfl, rfl⟩

/-- Claim C2: when construction of the native formatter throws, format
still returns a string, namely toLocaleString of the value at the instance
default locale, and formatRange falls back to joining two plainly
formatted endpoints with a hyphen; in this model every public method is a
total function into String, so no call propagates an exception. -/
theorem fallback_on_constructor_throw (h : Host) (d : FormatOptions)
    (v : ℚ) (o : FormatOptions)
    (hintl : h.intlAvailable = true)
    (hnt : ¬(jsAbs v < tinyThreshold ∧ truthyInt o.minimumFractionDigits = true))
    (herr : h.mkFormatter (formatLocale d o) (formatSafeOpts h d o) = .error ()) :
    format h d v o = h.toLocaleString v d.locale ∧
    (∀ (s e : ℚ) (o₂ : FormatOptions),
      h.mkFormatter (formatLocale d o₂) (rangeSafeOpts h d o₂) = .error () →
      formatRange h d s e o₂ = format h d s {} ++ " - " ++ format h d e {}) := by
  constructor
  · unfold format
    rw [if_neg hnt]
    unfold formatMain
    rw [hintl]
    simp only [Bool.true_eq_false, if_false, herr]
  · intro s e o₂ herr₂
    unfold formatRange
    rw [hintl]
    simp only [Bool.true_eq_false, if_false, herr₂]

/-- Claim C2, witness: a host whose constructor always throws. -/
theorem fallback_on_constructor_throw_witness :
    format hostThrow (mkDefaultOptions hostThrow {}) 1 {} =
      hostThrow.toLocaleString 1 (mkDefaultOptions hostThrow {}).locale :=
  (fallback_on_constructor_throw hostThrow (mkDefaultOptions hostThrow {}) 1 {}
    rfl (by decide) rfl).1

/-- Claim C3: without notation support, formatCompact renders through the
T, B, M, K suffix table: the absolute value scaled down by the matching
power of ten, rendered by toFixed at precision 1 clamped between the
per-call minimum and maximum fraction digits (both defaulting to 1), with
a minus prefix exactly for negative values, deferring to plain format
below one thousand. -/
theorem compact_fallback_table (h : Host) (d : FormatOptions)
    (v : ℚ) (o : FormatOptions) (hn : supportsNotation h = false) :
    (jsAbs v ≥ 10 ^ 12 →
      formatCompact h d v o =
        (if v < 0 then "-" else "") ++
          h.toFixed (jsAbs v / 10 ^ 12) (compactPrecision o) ++ "T") ∧
    (10 ^ 9 ≤ jsAbs v ∧ jsAbs v < 10 ^ 12 →
      formatCompact h d v o =
        (if v < 0 then "-" else "") ++
          h.toFixed (jsAbs v / 10 ^ 9) (compactPrecision o) ++ "B") ∧
    (10 ^ 6 ≤ jsAbs v ∧ jsAbs v < 10 ^ 9 →
      formatCompact h d v o =
        (if v < 0 then "-" else "") ++
          h.toFixed (jsAbs v / 10 ^ 6) (compactPrecision o) ++ "M") ∧
    (10 ^ 3 ≤ jsAbs v ∧ jsAbs v < 10 ^ 6 →
      formatCompact h d v o =
        (if v < 0 then "-" else "") ++
          h.toFixed (jsAbs v / 10 ^ 3) (compactPrecision o) ++ "K") ∧
    (jsAbs v < 10 ^ 3 → formatCompact h d v o = format h d v o) ∧
    compactPrecision o =
      min (max (o.minimumFractionDigits.getD 1) 1) (o.maximumFractionDigits.getD 1) := by
  have e12 : (1000000000000 : ℚ) = 10 ^ 12 := by norm_num
  have e9 : (1000000000 : ℚ) = 10 ^ 9 := by norm_num
  have e6 : (1000000 : ℚ) = 10 ^ 6 := by norm_num
  have e3 : (1000 : ℚ) = 10 ^ 3 := by norm_num
  unfold formatCompact
  rw [hn]
  simp only [Bool.false_eq_true, if_false, if_true, eq_self_iff_true,
    divPow10_eq_div, e12, e9, e6, e3]
  refine ⟨?_, ?_, ?_, ?_, ?_, rfl⟩
  · intro h12
    rw [if_pos h12]
  · intro ⟨h9, h12⟩
    rw [if_neg (not_le.mpr h12), if_pos h9]
  · intro ⟨h6, h9⟩
    rw [if_neg (not_le.mpr (lt_of_lt_of_le h9 (by norm_num))),
      if_neg (not_le.mpr h9), if_pos h6]
  · intro ⟨h3, h6⟩
    rw [if_neg (not_le.mpr (lt_of_lt_of_le h6 (by norm_num))),
      if_neg (not_le.mpr (lt_of_lt_of_le h6 (by norm_num))),
      if_neg (not_le.mpr h6), if_pos h3]
  · intro h3
    rw [if_neg (not_le.mpr (lt_of_lt_of_le h3 (by norm_num))),
      if_neg (not_le.mpr (lt_of_lt_of_le h3 (by norm_num))),
      if_neg (not_le.mpr (lt_of_lt_of_le h3 (by norm_num))),
      if_neg (not_le.mpr h3)]

/-- Claim C3, witness: five billion on a host without notation support
renders through the B branch. -/
theorem compact_fallback_table_witness :
    formatCompact hostNoFeatures (mkDefaultOptions hostNoFeatures {}) 5000000000 {} =
      (if (5000000000 : ℚ) < 0 then "-" else "") ++
        hostNoFeatures.toFixed (jsAbs 5000000000 / 10 ^ 9)
          (compactPrecision {}) ++ "B" :=
  (compact_fallback_table hostNoFeatures (mkDefaultOptions hostNoFeatures {})
    5000000000 {} rfl).2.1 (by constructor <;> norm_num [jsAbs])

/-- Claim C6: without notation support, formatScientific is toExponential
at precision min(max(minimumSignificantDigits - 1, 0),
maximumSignificantDigits - 1), the significant digit options defaulting to
3 and 5, which gives precision 2 under the defaults. -/
theorem scientific_fallback_precision (h : Host) (d : FormatOptions)
    (v : ℚ) (o : FormatOptions) (hn : supportsNotation h = false) :
    formatScientific h d v o =
      h.toExponential v
        (min (max (o.minimumSignificantDigits.getD 3 - 1) 0)
          (o.maximumSignificantDigits.getD 5 - 1)) ∧
    (o.minimumSignificantDigits = none → o.maximumSignificantDigits = none →
      formatScientific h d v o = h.toExponential v 2) := by
  have base : formatScientific h d v o =
      h.toExponential v
        (min (max (o.minimumSignificantDigits.getD 3 - 1) 0)
          (o.maximumSignificantDigits.getD 5 - 1)) := by
    unfold formatScientific
    rw [hn]
    simp
  refine ⟨base, fun h1 h2 => ?_⟩
  rw [base, h1, h2]
  norm_num

/-- Claim C6, witness: default significant digit options give exponent
precision 2. -/
theorem scientific_fallback_precision_witness :
    formatScientific hostNoFeatures (mkDefaultOptions hostNoFeatures {}) 3 {} =
      hostNoFeatures.toExponential 3 2 :=
  (scientific_fallback_precision hostNoFeatures (mkDefaultOptions hostNoFeatures {})
    3 {} rfl).2 rfl rfl

/-- Claim C7: when the native formatRange is unavailable but the Intl
primitive exists and construction succeeds, formatRange joins the two
individually formatted endpoints with the locale separator, and the
separator table maps zh, ja and ko to the fullwidth tilde, ar, fa and he
to the em dash, th to the Thai word, and every other language subtag to
the en dash. -/
theorem range_separator_fallback (h : Host) (d : FormatOptions) (s e : ℚ)
    (o : FormatOptions) (f : NativeFormatter)
    (hintl : h.intlAvailable = true)
    (hnr : supportsFormatRange h = false)
    (hmk : h.mkFormatter (formatLocale d o) (rangeSafeOpts h d o) = .ok f) :
    formatRange h d s e o =
      f.fmt s ++ getLocaleSeparator (localeOrEn (formatLocale d o)) ++ f.fmt e ∧
    (∀ loc : String,
      (langOf loc = "zh" ∨ langOf loc = "ja" ∨ langOf loc = "ko" →
        getLocaleSeparator loc = "～") ∧
      (langOf loc = "ar" ∨ langOf loc = "fa" ∨ langOf loc = "he" →
        getLocaleSeparator loc = "—") ∧
      (langOf loc = "th" → getLocaleSeparator loc = " ถึง ") ∧
      (¬(langOf loc = "zh" ∨ langOf loc = "ja" ∨ langOf loc = "ko") →
        ¬(langOf loc = "ar" ∨ langOf loc = "fa" ∨ langOf loc = "he") →
        langOf loc ≠ "th" →
        getLocaleSeparator loc = "–")) := by
  constructor
  · unfold formatRange
    rw [hintl]
    simp only [Bool.true_eq_false, if_false, hmk, hnr, Bool.false_eq_true]
  · intro loc
    unfold getLocaleSeparator
    refine ⟨fun hz => ?_, fun ha => ?_, fun ht => ?_, fun hz ha ht => ?_⟩
    · rw [if_pos hz]
    · have hz : ¬(langOf loc = "zh" ∨ langOf loc = "ja" ∨ langOf loc = "ko") := by
        rcases ha with h | h | h <;> rw [h] <;> decide
      rw [if_neg hz, if_pos ha]
    · have hz : ¬(langOf loc = "zh" ∨ langOf loc = "ja" ∨ langOf loc = "ko") := by
        rw [ht]; decide
      have ha : ¬(langOf loc = "ar" ∨ langOf loc = "fa" ∨ langOf loc = "he") := by
        rw [ht]; decide
      rw [if_neg hz, if_neg ha, if_pos ht]
    · rw [if_neg hz, if_neg ha, if_neg ht]

/-- Claim C7, witness: a Japanese locale on a host without the native
formatRange joins the endpoints with the fullwidth tilde. -/
theorem range_separator_fallback_witness :
    formatRange hostNoFeatures (mkDefaultOptions hostNoFeatures {}) 1 2
        { locale := some "ja" } =
      nfConst.fmt 1 ++
        getLocaleSeparator
          (localeOrEn (formatLocale (mkDefaultOptions hostNoFeatures {})
            { locale := some "ja" })) ++ nfConst.fmt 2 :=
  (range_separator_fallback hostNoFeatures (mkDefaultOptions hostNoFeatures {})
    1 2 { locale := some "ja" } nfConst rfl rfl rfl).1

/-- Claim C10: for values whose absolute value is below the tiny
threshold, a per-call minimumFractionDigits that is present and nonzero
short-circuits format into toFixed of the raw value at that digit count,
ignoring every other merged option; an absent or zero per-call
minimumFractionDigits leaves format on its ordinary path. -/
theorem tiny_value_tofixed_branch (h : Host) (d : FormatOptions)
    (v : ℚ) (o : FormatOptions) (hv : jsAbs v < tinyThreshold) :
    (∀ n : Int, o.minimumFractionDigits = some n → n ≠ 0 →
      format h d v o = h.toFixed v n) ∧
    (o.minimumFractionDigits = none → format h d v o = formatMain h d v o) ∧
    (o.minimumFractionDigits = some 0 → format h d v o = formatMain h d v o) := by
  refine ⟨fun n hm hn0 => ?_, fun hm => ?_, fun hm => ?_⟩
  · unfold format
    rw [if_pos ⟨hv, by simp [truthyInt, hm, hn0]⟩, hm]
    rfl
  · unfold format
    rw [if_neg (by simp [truthyInt, hm])]
  · unfold format
    rw [if_neg (by simp [truthyInt, hm])]

/-- Claim C10, witness: one ten-millionth with a per-call
minimumFractionDigits of 4 renders through toFixed. -/
theorem tiny_value_tofixed_branch_witness :
    format hostFull (mkDefaultOptions hostFull {}) (mkRat 1 10000000)
        { minimumFractionDigits := some 4 } =
      hostFull.toFixed (mkRat 1 10000000) 4 :=
  (tiny_value_tofixed_branch hostFull (mkDefaultOptions hostFull {})
    (mkRat 1 10000000) { minimumFractionDigits := some 4 } (by decide)).1
    4 rfl (by decide)

end IntlSpec
